import Mathlib

/-!
Verification of the task tooling of the semaphore-mcp repository.

The Python sources are shallowly embedded: the Gateway (the outbound REST
client `self.semaphore`) is a parameter of each embedded operation, a JSON
response is a small inductive capturing exactly the shapes the code
distinguishes, and each operation is a total Lean function on those types.
Python exceptions are embedded as `Except`: a `.error` value is a raised
exception, an `.ok` value is a normal return.
-/

/-- One element of a task sequence returned by the Gateway: either a JSON
object (a Python dict) carrying the fields the task tools read (`id`,
`created`, `status`, each possibly absent), or a non-dict value, which the
code detects with `isinstance(x, dict)`. -/
inductive Entry where
  | dict (id : Option Int) (created : Option String) (status : Option String)
  | nondict
deriving DecidableEq, Repr

/-- Embeds `x.get("created", "") if isinstance(x, dict) else ""`, the sort
key used by `list_tasks` and `get_latest_failed_task` in tasks.py. -/
def Entry.createdKey : Entry → String
  | .dict _ c _ => c.getD ""
  | .nondict => ""

/-- Embeds `isinstance(t, dict) and t.get("status") == "error"`, the filter
of `get_latest_failed_task` in tasks.py. -/
def Entry.isErrorDict : Entry → Bool
  | .dict _ _ s => s == some "error"
  | .nondict => false

/-- Status of an entry with a missing status read as the empty string. -/
def Entry.statusOrEmpty : Entry → String
  | .dict _ _ s => s.getD ""
  | .nondict => ""

/-- Shape of the Gateway's `list_tasks` response as distinguished by
tasks.py: `isinstance(api_response, list)`, or
`isinstance(api_response, dict) and "tasks" in api_response`, or anything
else (`None`, a string, a dict without a `tasks` key, ...). -/
inductive ApiResponse where
  | list (tasks : List Entry)
  | dictWithTasks (tasks : List Entry)
  | other
deriving DecidableEq, Repr

/-- Embeds the response normalisation done at the top of `list_tasks` and
`get_latest_failed_task` in tasks.py: a bare list is taken as is, a dict
with a `tasks` key contributes `api_response.get("tasks", [])`, and any
other shape leaves `all_tasks = []`. -/
def normalizeTasks : ApiResponse → List Entry
  | .list l => l
  | .dictWithTasks l => l
  | .other => []

/-- Insert `a` into a list already sorted in descending `key` order: skip
the elements whose key is strictly greater than `key a` and place `a` in
front of the first element whose key is less than or equal, so that equal
keys keep `a` (the earlier element of the original list under `foldr`)
first. -/
def insertByKeyDesc (key : α → String) (a : α) : List α → List α
  | [] => [a]
  | b :: l => if key a < key b then b :: insertByKeyDesc key a l else a :: b :: l

/-- Embeds Python's `sorted(l, key=key, reverse=True)`: the stable sort of
`l` in descending `key` order, ties broken by original order.  Python's
sorted is functionally characterised by producing a sorted stable
permutation, which this structural insertion sort computes. -/
def pySortByKeyDesc (key : α → String) (l : List α) : List α :=
  l.foldr (insertByKeyDesc key) []

/-- Embeds the Python slice `l[:k]` for an arbitrary integer `k`: a
non-negative `k` keeps the first `k` elements, a negative `k` drops the
last `-k` elements (clamped at zero). -/
def pySlice (l : List α) (k : Int) : List α :=
  if k < 0 then l.take ((l.length + k : Int)).toNat else l.take k.toNat

/-- Result shape of `TaskTools.list_tasks` in tasks.py. -/
structure ListTasksResult where
  tasks : List Entry
  total : Nat
  shown : Nat
  note : String
deriving DecidableEq, Repr

/-- Embeds `TaskTools.list_tasks` from tasks.py (the non-raising path, i.e.
the Gateway returned `api_response`): normalise the response, sort by the
`created` key newest first, truncate to `limit`, and report totals. -/
def list_tasks (api_response : ApiResponse) (limit : Int) : ListTasksResult :=
  let all_tasks := normalizeTasks api_response
  let sorted_tasks := pySortByKeyDesc Entry.createdKey all_tasks
  let limited_tasks := pySlice sorted_tasks limit
  { tasks := limited_tasks
    total := all_tasks.length
    shown := limited_tasks.length
    note := "Showing " ++ toString limited_tasks.length ++ " of " ++
      toString all_tasks.length ++ " tasks (sorted by newest first)" }

/-- Result shape of `TaskTools.get_latest_failed_task` in tasks.py: either
the message dict `{"message": ...}` (which has no `task` key) or the task
dict `{"task": ...}`. -/
inductive LatestFailedResult where
  | message (text : String)
  | task (t : Entry)
deriving DecidableEq, Repr

/-- The failed tasks `[t for t in tasks if isinstance(t, dict) and
t.get("status") == "error"]` of a normalised response. -/
def failedTasksOf (api_response : ApiResponse) : List Entry :=
  (normalizeTasks api_response).filter Entry.isErrorDict

/-- Embeds `TaskTools.get_latest_failed_task` from tasks.py (the
non-raising path): filter to failed tasks, sort newest first, and return
the head, or the fixed message when there is none. -/
def get_latest_failed_task (api_response : ApiResponse) : LatestFailedResult :=
  match pySortByKeyDesc Entry.createdKey (failedTasksOf api_response) with
  | [] => .message "No failed tasks found for this project"
  | t :: _ => .task t

theorem length_insertByKeyDesc (key : α → String) (a : α) (l : List α) :
    (insertByKeyDesc key a l).length = l.length + 1 := by
  induction l with
  | nil => rfl
  | cons b t ih =>
    simp only [insertByKeyDesc]
    split
    · simp [ih]
    · simp

theorem mem_insertByKeyDesc {key : α → String} {a x : α} {l : List α} :
    x ∈ insertByKeyDesc key a l ↔ x = a ∨ x ∈ l := by
  induction l with
  | nil => simp [insertByKeyDesc]
  | cons b t ih =>
    simp only [insertByKeyDesc]
    split
    · simp only [List.mem_cons, ih]
      tauto
    · simp only [List.mem_cons]

theorem pairwise_insertByKeyDesc (key : α → String) (a : α) (l : List α)
    (h : l.Pairwise (fun x y => key y ≤ key x)) :
    (insertByKeyDesc key a l).Pairwise (fun x y => key y ≤ key x) := by
  induction l with
  | nil => simp [insertByKeyDesc]
  | cons b t ih =>
    rw [List.pairwise_cons] at h
    simp only [insertByKeyDesc]
    split
    case isTrue hlt =>
      refine List.pairwise_cons.mpr ⟨?_, ih h.2⟩
      intro x hx
      rcases mem_insertByKeyDesc.mp hx with hxa | hxt
      · exact hxa ▸ le_of_lt hlt
      · exact h.1 x hxt
    case isFalse hge =>
      refine List.pairwise_cons.mpr ⟨?_, List.pairwise_cons.mpr h⟩
      intro x hx
      rcases List.mem_cons.mp hx with hxb | hxt
      · exact hxb ▸ not_lt.mp hge
      · exact le_trans (h.1 x hxt) (not_lt.mp hge)

theorem length_pySortByKeyDesc (key : α → String) (l : List α) :
    (pySortByKeyDesc key l).length = l.length := by
  induction l with
  | nil => rfl
  | cons a t ih =>
    show (insertByKeyDesc key a (pySortByKeyDesc key t)).length = t.length + 1
    rw [length_insertByKeyDesc, ih]

theorem mem_pySortByKeyDesc {key : α → String} {x : α} {l : List α} :
    x ∈ pySortByKeyDesc key l ↔ x ∈ l := by
  induction l with
  | nil => simp [pySortByKeyDesc]
  | cons a t ih =>
    show x ∈ insertByKeyDesc key a (pySortByKeyDesc key t) ↔ _
    rw [mem_insertByKeyDesc, ih]
    simp

theorem pairwise_pySortByKeyDesc (key : α → String) (l : List α) :
    (pySortByKeyDesc key l).Pairwise (fun x y => key y ≤ key x) := by
  induction l with
  | nil => simp [pySortByKeyDesc]
  | cons a t ih =>
    exact pairwise_insertByKeyDesc key a _ ih

/-- A task list in descending `created` order (string comparison), the
order `list_tasks` and `get_latest_failed_task` produce. -/
def SortedByCreatedDesc (l : List Entry) : Prop :=
  l.Pairwise (fun x y => Entry.createdKey y ≤ Entry.createdKey x)

theorem length_pySlice (l : List α) (k : Int) (h : 0 ≤ k) :
    ((pySlice l k).length : Int) = min k (l.length : Int) := by
  unfold pySlice
  rw [if_neg (not_lt.mpr h), List.length_take]
  omega

theorem sortedByCreatedDesc_pySlice {l : List Entry} (k : Int)
    (h : SortedByCreatedDesc l) : SortedByCreatedDesc (pySlice l k) := by
  unfold pySlice
  split <;> exact List.Pairwise.sublist (List.take_sublist _ _) h

/-- Shape of the Gateway's `list_projects` response as distinguished by
`run_task` in tasks.py: a list, a dict with a `projects` key, or anything
else (which leaves `project_list = []`). -/
inductive ProjectsResponse where
  | list (projects : List Int)
  | dictWithProjects (projects : List Int)
  | other
deriving DecidableEq, Repr

/-- Embeds the project-list normalisation of `run_task` in tasks.py; the
projects are read through `proj["id"]` only, so each project is its id. -/
def normalizeProjects : ProjectsResponse → List Int
  | .list l => l
  | .dictWithProjects l => l
  | .other => []

/-- Shape of the Gateway's `list_templates` response as distinguished by
`run_task` in tasks.py: a list, a dict with a `templates` key, or anything
else (which leaves `template_list = []`). -/
inductive TemplatesResponse where
  | list (templates : List Int)
  | dictWithTemplates (templates : List Int)
  | other
deriving DecidableEq, Repr

/-- Embeds the template-list normalisation of `run_task` in tasks.py; the
templates are read through `tmpl["id"]` only, so each template is its id. -/
def normalizeTemplates : TemplatesResponse → List Int
  | .list l => l
  | .dictWithTemplates l => l
  | .other => []

/-- A raised error from the Gateway's `run_task` call:
`requests.exceptions.HTTPError` carrying an optional status code (absent
when the exception has no usable `response.status_code`, which the code
renders as `"unknown"`), or any other exception with its message. -/
inductive GwError where
  | http (status : Option Int) (msg : String)
  | otherExc (msg : String)
deriving DecidableEq, Repr

/-- Environment dict passed to `run_task`; `none` embeds Python `None` and
`some []` an empty dict, both falsy. -/
def EnvDict := List (String × String)

/-- Embeds Python truthiness of the optional `environment` argument. -/
def envTruthy : Option EnvDict → Bool
  | none => false
  | some [] => false
  | some (_ :: _) => true

/-- Embeds Python truthiness of the optional integer `project_id`
(`if not project_id:` treats both `None` and `0` as absent). -/
def pyFalsyInt : Option Int → Bool
  | none => true
  | some v => v == 0

/-- The raw response of a successful Gateway task creation, as returned by
`self.semaphore.run_task`: the created task record itself (tasks.py returns
it unchanged, so this type deliberately has no envelope fields). -/
structure CreateResponse where
  id : Int
  status : String
deriving DecidableEq, Repr

/-- The Gateway (`self.semaphore`) as consumed by `TaskTools.run_task` in
tasks.py: `list_projects`, `list_templates` (which may raise), and the
task-creation call `run_task` (which may raise an HTTP or other error). -/
structure TaskGateway where
  list_projects : ProjectsResponse
  list_templates : Int → Except String TemplatesResponse
  run_task : Int → Int → Option EnvDict → Except GwError CreateResponse

/-- One Gateway call issued by `TaskTools.run_task`, in order. -/
inductive TCall where
  | listProjects
  | listTemplates (project_id : Int)
  | createTask (project_id template_id : Int)
deriving DecidableEq, Repr

/-- Embeds the project-resolution scan of `run_task` in tasks.py: for each
project in order, list its templates (an exception is logged and skipped),
and stop at the first project whose template list contains `template_id`.
Returns the resolved project id (or `none`) and the Gateway calls made. -/
def findTemplateProject (gw : TaskGateway) (template_id : Int) :
    List Int → Option Int × List TCall
  | [] => (none, [])
  | proj_id :: rest =>
    match gw.list_templates proj_id with
    | .error _ =>
      let r := findTemplateProject gw template_id rest
      (r.1, TCall.listTemplates proj_id :: r.2)
    | .ok tresp =>
      if (normalizeTemplates tresp).any (fun t => t == template_id) then
        (some proj_id, [TCall.listTemplates proj_id])
      else
        let r := findTemplateProject gw template_id rest
        (r.1, TCall.listTemplates proj_id :: r.2)

/-- Embeds the inner `try` of `run_task` in tasks.py around the Gateway's
task-creation call, composed with the outer `except` that wraps every
raised exception as `RuntimeError("Error preparing to run task: ...")`:
an `HTTPError` becomes `"HTTP error <code> when running task: ..."` with
the 400-with-environment hint appended, any other exception becomes
`"Error running task: ..."`, and a success returns the Gateway response
unchanged. -/
def runCreate (gw : TaskGateway) (project_id template_id : Int)
    (environment : Option EnvDict) : Except String CreateResponse × List TCall :=
  match gw.run_task project_id template_id environment with
  | .ok r => (.ok r, [TCall.createTask project_id template_id])
  | .error (.http st m) =>
    let status_code := match st with
      | some c => toString c
      | none => "unknown"
    let base := "HTTP error " ++ status_code ++ " when running task: " ++ m
    let error_msg :=
      if st == some 400 && envTruthy environment then
        base ++ ". The 400 Bad Request might be related to unsupported environment variables"
      else base
    (.error ("Error preparing to run task: " ++ error_msg),
      [TCall.createTask project_id template_id])
  | .error (.otherExc m) =>
    (.error ("Error preparing to run task: " ++ ("Error running task: " ++ m)),
      [TCall.createTask project_id template_id])

/-- Embeds `TaskTools.run_task` from tasks.py: when `project_id` is falsy,
scan all projects' template lists for `template_id` (raising the
"Could not determine project_id" error, wrapped by the outer handler, when
the scan fails); then invoke the Gateway's task creation.  The second
component records the Gateway calls issued, in order.  A `.error` result is
a raised `RuntimeError`; a `.ok` result is the value returned. -/
def run_task (gw : TaskGateway) (template_id : Int) (project_id : Option Int)
    (environment : Option EnvDict) : Except String CreateResponse × List TCall :=
  if pyFalsyInt project_id then
    let project_list := normalizeProjects gw.list_projects
    let scan := findTemplateProject gw template_id project_list
    let resolved : Option Int := match scan.1 with
      | some p => some p
      | none => project_id
    if pyFalsyInt resolved then
      (.error ("Error preparing to run task: Could not determine project_id for template "
          ++ toString template_id ++ ". Please provide it explicitly."),
        TCall.listProjects :: scan.2)
    else
      let r := runCreate gw (resolved.getD 0) template_id environment
      (r.1, TCall.listProjects :: (scan.2 ++ r.2))
  else
    runCreate gw (project_id.getD 0) template_id environment

/-- A concrete Gateway whose task-creation call raises
`HTTPError` with status 400 ("Bad request"), the scenario of the repo's
test `test_run_task_http_error`. -/
def gwHttp400 : TaskGateway where
  list_projects := .list []
  list_templates := fun _ => .ok (.list [])
  run_task := fun _ _ _ => .error (.http (some 400) "Bad request")

/-- A concrete Gateway whose task-creation call succeeds with the raw task
record `{"id": 123, "status": "scheduled"}`. -/
def gwCreateOk : TaskGateway where
  list_projects := .list []
  list_templates := fun _ => .ok (.list [])
  run_task := fun _ _ _ => .ok ⟨123, "scheduled"⟩

/-- Arguments of a tool invocation as a JSON object mapping argument names
to (integer) values; `arg in args` is key membership. -/
def ToolArgs := List (String × Int)

/-- Embeds the `arg not in args` membership test of server.py. -/
def hasArg (args : ToolArgs) (k : String) : Bool :=
  args.any (fun p => p.1 == k)

/-- Embeds `args[k]` for a key known to be present (validated first). -/
def getArg (args : ToolArgs) (k : String) : Int :=
  match args.find? (fun p => p.1 == k) with
  | some p => p.2
  | none => 0

/-- Embeds `validate_required_args` from server.py: walk the required names
in order and raise `KeyError(f"Missing required argument: {arg}")` at the
first one absent from `args`. -/
def validate_required_args (args : ToolArgs) : List String → Except String Unit
  | [] => .ok ()
  | k :: rest =>
    if hasArg args k then validate_required_args args rest
    else .error ("Missing required argument: " ++ k)

/-- The Gateway as consumed by `MCPServer.tool_get_task` in server.py. -/
structure ServerGateway where
  get_task : Int → Int → Except String CreateResponse

/-- Transport envelope built by `format_json_response` / `format_error` in
server.py: a text content entry with the serialised data, or an
error-typed content entry with the message. -/
inductive ToolResponse where
  | text (data : CreateResponse)
  | errorContent (msg : String)
deriving DecidableEq, Repr

/-- Embeds `MCPServer.tool_get_task` from server.py, together with the list
of Gateway calls it issues (as `(project_id, task_id)` pairs): validation
runs before the `try` block, so a missing required argument raises
`KeyError` (the `.error` case) before any Gateway call; otherwise the
Gateway is called once and its outcome is wrapped by
`format_json_response` or `format_error`. -/
def tool_get_task (gw : ServerGateway) (args : ToolArgs) :
    Except String ToolResponse × List (Int × Int) :=
  match validate_required_args args ["project_id", "task_id"] with
  | .error m => (.error m, [])
  | .ok _ =>
    let project_id := getArg args "project_id"
    let task_id := getArg args "task_id"
    match gw.get_task project_id task_id with
    | .ok r => (.ok (.text r), [(project_id, task_id)])
    | .error e => (.ok (.errorContent e), [(project_id, task_id)])

/-- Modelled from the spec: the startup-monitoring loop
`_monitor_task_startup` is not part of the sources under src (tasks.py
there predates it; only its tests exist), so its environment is modelled
from section 4.1 of the spec.  The Gateway's `get_task` at each poll either
returns a status, raises a not-found HTTP error, or raises another
(connection) error; the fallback `list_tasks` lookup either finds the task
in the list (with a status) or does not. -/
inductive PollOutcome where
  | ok (status : String)
  | notFound
  | connError (msg : String)
deriving DecidableEq, Repr

/-- Modelled from the spec: the remote behaviour seen by one monitoring
invocation, indexed by poll number. -/
structure MonitorEnv where
  get_task : Nat → PollOutcome
  taskInList : Nat → Option String

/-- One StatusUpdate appended per poll attempt (section 3 of the spec). -/
structure StatusUpdate where
  status : String
  message : Option String
deriving DecidableEq, Repr

/-- MonitoringResult as described in section 3 of the spec. -/
structure MonitoringResult where
  completed : Bool
  final_status : String
  total_polls : Nat
  consecutive_errors : Nat
  status_updates : List StatusUpdate
  summary : String
deriving DecidableEq, Repr

/-- Terminal statuses per the spec glossary: after these the task will not
change further. -/
def terminalStatuses : List String := ["success", "error", "stopped"]

/-- Decides whether a status is terminal. -/
def isTerminal (s : String) : Bool := terminalStatuses.contains s

/-- Modelled from the spec: fixed wall-clock budget of 30 seconds. -/
def monitorBudgetSeconds : Nat := 30

/-- Modelled from the spec: fixed poll interval of 3 seconds. -/
def pollIntervalSeconds : Nat := 3

/-- Maximum number of polls within the wall-clock budget. -/
def maxTotalPolls : Nat := monitorBudgetSeconds / pollIntervalSeconds

/-- Modelled from the spec: consecutive-error budget of 3. -/
def maxConsecutiveErrors : Nat := 3

/-- Modelled from the spec: one pass of the bounded polling loop of
`_monitor_task_startup` (section 4.1), with the remaining wall-clock budget
as fuel.  On a successful observation the consecutive-error counter resets
and a terminal status stops the loop; on a not-found error the fallback
list lookup is tried first; on a failed poll the consecutive-error counter
grows and reaching the error budget stops the loop early. -/
def monitorLoop (env : MonitorEnv) (fuel : Nat) (polls consec : Nat)
    (updates : List StatusUpdate) (last : String) : MonitoringResult :=
  match fuel with
  | 0 =>
    { completed := false, final_status := last, total_polls := polls
      consecutive_errors := consec, status_updates := updates
      summary := "Task still running after " ++ toString monitorBudgetSeconds ++ "s of monitoring" }
  | fuel + 1 =>
    match env.get_task polls with
    | .ok s =>
      let updates := updates ++ [⟨s, none⟩]
      if isTerminal s then
        { completed := true, final_status := s, total_polls := polls + 1
          consecutive_errors := 0, status_updates := updates
          summary := "Task finished with status: " ++ s }
      else monitorLoop env fuel (polls + 1) 0 updates s
    | .notFound =>
      match env.taskInList polls with
      | some s =>
        let updates := updates ++ [⟨s, some "Status retrieved via task list"⟩]
        if isTerminal s then
          { completed := true, final_status := s, total_polls := polls + 1
            consecutive_errors := 0, status_updates := updates
            summary := "Task finished with status: " ++ s }
        else monitorLoop env fuel (polls + 1) 0 updates s
      | none =>
        let updates := updates ++ [⟨last, some "HTTP error while polling task status"⟩]
        if maxConsecutiveErrors ≤ consec + 1 then
          { completed := false, final_status := last, total_polls := polls + 1
            consecutive_errors := consec + 1, status_updates := updates
            summary := "Monitoring stopped after repeated errors" }
        else monitorLoop env fuel (polls + 1) (consec + 1) updates last
    | .connError m =>
      let updates := updates ++ [⟨last, some ("Connection error: " ++ m)⟩]
      if maxConsecutiveErrors ≤ consec + 1 then
        { completed := false, final_status := last, total_polls := polls + 1
          consecutive_errors := consec + 1, status_updates := updates
          summary := "Monitoring stopped after repeated errors" }
      else monitorLoop env fuel (polls + 1) (consec + 1) updates last

/-- Modelled from the spec: `_monitor_task_startup(project_id, task_id)`,
the bounded-duration startup-monitoring loop of section 4.1, starting with
a full wall-clock budget and no errors observed. -/
def monitor_task_startup (env : MonitorEnv) : MonitoringResult :=
  monitorLoop env maxTotalPolls 0 0 [] "unknown"

/-- The Gateway behaviour of the spec's degenerate monitoring scenario: the
`get_task` call always raises a not-found error and the fallback task list
is always empty. -/
def alwaysNotFoundEnv : MonitorEnv where
  get_task := fun _ => .notFound
  taskInList := fun _ => none

/-- Modelled from the spec: `filter_tasks` is not part of the sources under
src (tasks.py there predates it; only its tests exist).  Status aliases
per section 4.2: "successful" resolves to `success`, "failed" to `error`,
and literal remote enum values pass through. -/
def resolveStatusAlias (s : String) : String :=
  if s == "successful" then "success"
  else if s == "failed" then "error"
  else s

/-- Statistics computed by `filter_tasks` over the retrieved
(pre-truncation) set. -/
structure FilterStatistics where
  total_tasks : Nat
  filtered_tasks : Nat
deriving DecidableEq, Repr

/-- FilterResult as described in section 3 of the spec; the type has no
error variant because an empty input is a normal outcome. -/
structure FilterResult where
  tasks : List Entry
  statistics : FilterStatistics
  note : String
deriving DecidableEq, Repr

/-- The retrieved tasks whose (alias-resolved) status is among the
requested ones. -/
def filteredByStatus (retrieved : List Entry) (status : List String) : List Entry :=
  let resolved := status.map resolveStatusAlias
  retrieved.filter (fun t => resolved.contains t.statusOrEmpty)

/-- Modelled from the spec: `filter_tasks(project_id, status, limit)` over
an already-retrieved task set (section 4.2): resolve aliases, filter,
compute statistics over the retrieved set before truncation, then truncate
the filtered sequence to `limit`. -/
def filter_tasks (retrieved : List Entry) (status : List String) (limit : Nat) :
    FilterResult :=
  let filtered := filteredByStatus retrieved status
  { tasks := filtered.take limit
    statistics := { total_tasks := retrieved.length, filtered_tasks := filtered.length }
    note := "Filtered " ++ toString filtered.length ++ " of " ++
      toString retrieved.length ++ " tasks by status" }

/-- Modelled from the spec: the two data-source strategies of
`filter_tasks` (section 4.2): the cheaper "last tasks" endpoint when
`use_last_tasks` is true, else the full list endpoint. -/
def filter_tasks_from (lastTasks fullTasks : List Entry) (use_last_tasks : Bool)
    (status : List String) (limit : Nat) : FilterResult :=
  filter_tasks (if use_last_tasks then lastTasks else fullTasks) status limit

/-- Modelled from the spec: the Gateway stop call as consumed by
`bulk_stop_tasks` (not part of the sources under src; only its tests
exist): stopping a task either succeeds or fails with a message. -/
structure StopGateway where
  stop_task : Nat → Except String Unit

/-- Summary reported by a confirmed bulk stop. -/
structure BulkSummary where
  total_tasks : Nat
  succeeded : Nat
  failed : Nat
deriving DecidableEq, Repr

/-- Modelled from the spec: result of `bulk_stop_tasks` (section 4.4):
either the side-effect-free preview requiring confirmation, or the
completed bulk operation with per-task outcomes (`true` = stopped). -/
inductive BulkStopResult where
  | preview (confirmation_required : Bool) (tasks_to_stop : Nat)
  | complete (summary : BulkSummary) (results : List (Nat × Bool))
deriving DecidableEq, Repr

/-- Modelled from the spec: whether one Gateway stop call succeeded
(`true`) or failed (`false`), as recorded per task by `bulk_stop_tasks`. -/
def stopOutcome (gw : StopGateway) (tid : Nat) : Bool :=
  match gw.stop_task tid with
  | .ok _ => true
  | .error _ => false

/-- Modelled from the spec: `bulk_stop_tasks(project_id, task_ids,
confirm)` (section 4.4), returning the result together with the list of
task ids for which a Gateway stop call was issued, in order.  Without
confirmation nothing is stopped; with confirmation one stop call is issued
per task id sequentially, each per-task failure recorded without aborting
the operation. -/
def bulk_stop_tasks (gw : StopGateway) (task_ids : List Nat) (confirm : Bool) :
    BulkStopResult × List Nat :=
  if confirm then
    let results := task_ids.map (fun tid => (tid, stopOutcome gw tid))
    let succeeded := results.countP (fun r => r.2 == true)
    (.complete
      { total_tasks := task_ids.length
        succeeded := succeeded
        failed := task_ids.length - succeeded }
      results,
      task_ids)
  else
    (.preview true task_ids.length, [])

/-- A sample successful task entry. -/
def entrySuccessA : Entry := .dict (some 1) (some "2023-06-01") (some "success")

/-- A sample failed task entry, newer than `entrySuccessA`. -/
def entryErrorB : Entry := .dict (some 2) (some "2023-06-02") (some "error")

/-- C1: the claim says `run_task` returns (does not raise) a structured
error object with `error_type = "http_error"` when the Gateway's
task-creation call raises an HTTP error.  The code under src instead
raises: at the failing input (Gateway raising HTTPError 400 with a
non-empty environment) `run_task` raises a `RuntimeError` whose message
wraps the HTTP error, returning nothing — contradicting the repo's own
test `test_run_task_http_error`, which asserts the structured return. -/
theorem run_task_http_error_raises :
    (run_task gwHttp400 42 (some 1) (some [("ENV_VAR", "value")])).1 =
      Except.error ("Error preparing to run task: HTTP error 400 when running task: " ++
        "Bad request. The 400 Bad Request might be related to unsupported environment variables") :=
  rfl

/-- C2 (counterexample): at the negative limit `L = -1` and a one-element
task list, `list_tasks` shows `0` tasks (the Python slice `l[:-1]` drops
the last element), while the claim's `min(L, total)` is `-1`; so the claim
quantified over every limit `L` fails. -/
theorem list_tasks_negative_limit_counterexample :
    ¬ (((list_tasks (ApiResponse.list [entrySuccessA]) (-1)).shown : Int) =
        min (-1) ((list_tasks (ApiResponse.list [entrySuccessA]) (-1)).total : Int)) := by
  decide

/-- C2 (amended: for every non-negative limit `L`): `list_tasks` returns
`shown = min(L, total)`, a `tasks` sequence of length `shown` sorted in
descending `created` order (string comparison), and `total` equal to the
number of tasks retrieved from the Gateway. -/
theorem list_tasks_shown_min_total_sorted (resp : ApiResponse) (L : Int)
    (h : 0 ≤ L) :
    ((list_tasks resp L).shown : Int) = min L ((list_tasks resp L).total : Int)
  ∧ (list_tasks resp L).tasks.length = (list_tasks resp L).shown
  ∧ SortedByCreatedDesc (list_tasks resp L).tasks
  ∧ (list_tasks resp L).total = (normalizeTasks resp).length := by
  refine ⟨?_, rfl, ?_, rfl⟩
  · have h1 := length_pySlice (pySortByKeyDesc Entry.createdKey (normalizeTasks resp)) L h
    rw [length_pySortByKeyDesc] at h1
    exact h1
  · exact sortedByCreatedDesc_pySlice L (pairwise_pySortByKeyDesc _ _)

/-- Witness for C2 at the two-element response and limit 1. -/
theorem list_tasks_shown_min_total_sorted_witness :
    ((list_tasks (ApiResponse.list [entrySuccessA, entryErrorB]) 1).shown : Int) =
      min 1 ((list_tasks (ApiResponse.list [entrySuccessA, entryErrorB]) 1).total : Int)
  ∧ (list_tasks (ApiResponse.list [entrySuccessA, entryErrorB]) 1).tasks.length =
      (list_tasks (ApiResponse.list [entrySuccessA, entryErrorB]) 1).shown
  ∧ SortedByCreatedDesc (list_tasks (ApiResponse.list [entrySuccessA, entryErrorB]) 1).tasks
  ∧ (list_tasks (ApiResponse.list [entrySuccessA, entryErrorB]) 1).total =
      (normalizeTasks (ApiResponse.list [entrySuccessA, entryErrorB])).length :=
  list_tasks_shown_min_total_sorted (ApiResponse.list [entrySuccessA, entryErrorB]) 1
    (by decide)

/-- C6: on a task set with no error task, `get_latest_failed_task` returns
the fixed no-failed-tasks message (a result without a `task` field) and
does not raise; with at least one error task it returns `{task}` holding an
error task whose `created` value is greatest among the error tasks. -/
theorem get_latest_failed_task_spec (resp : ApiResponse) :
    (failedTasksOf resp = [] →
      get_latest_failed_task resp = .message "No failed tasks found for this project")
  ∧ (failedTasksOf resp ≠ [] →
      ∃ t, get_latest_failed_task resp = .task t
        ∧ t ∈ failedTasksOf resp
        ∧ t.isErrorDict = true
        ∧ ∀ u ∈ failedTasksOf resp, u.createdKey ≤ t.createdKey) := by
  constructor
  · intro h
    simp [get_latest_failed_task, h, pySortByKeyDesc]
  · intro h
    have hlen := length_pySortByKeyDesc Entry.createdKey (failedTasksOf resp)
    cases hs : pySortByKeyDesc Entry.createdKey (failedTasksOf resp) with
    | nil =>
      rw [hs] at hlen
      exact absurd (List.length_eq_zero.mp hlen.symm) h
    | cons t rest =>
      have hpw := pairwise_pySortByKeyDesc Entry.createdKey (failedTasksOf resp)
      rw [hs] at hpw
      have hmem : t ∈ failedTasksOf resp :=
        mem_pySortByKeyDesc.mp (hs ▸ List.mem_cons_self t rest)
      refine ⟨t, ?_, hmem, ?_, ?_⟩
      · unfold get_latest_failed_task
        rw [hs]
      · exact (List.mem_filter.mp hmem).2
      · intro u hu
        have hu2 : u ∈ t :: rest := hs ▸ mem_pySortByKeyDesc.mpr hu
        rcases List.mem_cons.mp hu2 with rfl | hrest
        · exact le_refl _
        · exact (List.pairwise_cons.mp hpw).1 u hrest

/-- Witness for C6: the all-success singleton yields the message, the
mixed two-element set yields a maximal error task. -/
theorem get_latest_failed_task_spec_witness :
    get_latest_failed_task (ApiResponse.list [entrySuccessA]) =
      .message "No failed tasks found for this project"
  ∧ ∃ t, get_latest_failed_task (ApiResponse.list [entrySuccessA, entryErrorB]) = .task t
      ∧ t ∈ failedTasksOf (ApiResponse.list [entrySuccessA, entryErrorB])
      ∧ t.isErrorDict = true
      ∧ ∀ u ∈ failedTasksOf (ApiResponse.list [entrySuccessA, entryErrorB]),
          u.createdKey ≤ t.createdKey :=
  ⟨(get_latest_failed_task_spec (ApiResponse.list [entrySuccessA])).1 (by decide),
   (get_latest_failed_task_spec (ApiResponse.list [entrySuccessA, entryErrorB])).2 (by decide)⟩

/-- C10: a Gateway response that is neither a list nor a dict with a
`tasks` key is treated as an empty task set by both `list_tasks`
(`{tasks: [], total: 0, shown: 0}`) and `get_latest_failed_task` (the
no-failed-tasks message), with no exception raised. -/
theorem degenerate_response_is_empty_task_set (L : Int) :
    (list_tasks ApiResponse.other L).tasks = []
  ∧ (list_tasks ApiResponse.other L).total = 0
  ∧ (list_tasks ApiResponse.other L).shown = 0
  ∧ get_latest_failed_task ApiResponse.other =
      .message "No failed tasks found for this project" := by
  have hts : (list_tasks ApiResponse.other L).tasks = [] := by
    show pySlice ([] : List Entry) L = []
    unfold pySlice
    split <;> simp
  refine ⟨hts, rfl, ?_, rfl⟩
  have hsh : (list_tasks ApiResponse.other L).shown =
      (list_tasks ApiResponse.other L).tasks.length := rfl
  rw [hsh, hts]
  rfl

/-- Witness for C10 at the concrete limit 5. -/
theorem degenerate_response_is_empty_task_set_witness :
    (list_tasks ApiResponse.other 5).tasks = []
  ∧ (list_tasks ApiResponse.other 5).total = 0
  ∧ (list_tasks ApiResponse.other 5).shown = 0
  ∧ get_latest_failed_task ApiResponse.other =
      .message "No failed tasks found for this project" :=
  degenerate_response_is_empty_task_set 5

theorem monitorLoop_stops (env : MonitorEnv) (fuel : Nat) :
    ∀ (polls consec : Nat) (updates : List StatusUpdate) (last : String),
      (monitorLoop env fuel polls consec updates last).total_polls ≤ polls + fuel
    ∧ (((monitorLoop env fuel polls consec updates last).completed = true
          ∧ isTerminal (monitorLoop env fuel polls consec updates last).final_status = true)
       ∨ (monitorLoop env fuel polls consec updates last).total_polls = polls + fuel
       ∨ maxConsecutiveErrors ≤
           (monitorLoop env fuel polls consec updates last).consecutive_errors) := by
  induction fuel with
  | zero =>
    intro polls consec updates last
    simp [monitorLoop]
  | succ n ih =>
    intro polls consec updates last
    simp only [monitorLoop]
    cases henv : env.get_task polls with
    | ok s =>
      dsimp only
      by_cases hterm : isTerminal s = true
      · rw [if_pos hterm]
        exact ⟨(by omega : polls + 1 ≤ polls + (n + 1)), Or.inl ⟨rfl, hterm⟩⟩
      · rw [if_neg hterm]
        have h2 := ih (polls + 1) 0 (updates ++ [⟨s, none⟩]) s
        refine ⟨le_trans h2.1 (by omega), ?_⟩
        rcases h2.2 with h | h | h
        · exact Or.inl h
        · exact Or.inr (Or.inl (by omega))
        · exact Or.inr (Or.inr h)
    | notFound =>
      cases hl : env.taskInList polls with
      | some s =>
        dsimp only
        by_cases hterm : isTerminal s = true
        · rw [if_pos hterm]
          exact ⟨(by omega : polls + 1 ≤ polls + (n + 1)), Or.inl ⟨rfl, hterm⟩⟩
        · rw [if_neg hterm]
          have h2 := ih (polls + 1) 0 (updates ++ [⟨s, some "Status retrieved via task list"⟩]) s
          refine ⟨le_trans h2.1 (by omega), ?_⟩
          rcases h2.2 with h | h | h
          · exact Or.inl h
          · exact Or.inr (Or.inl (by omega))
          · exact Or.inr (Or.inr h)
      | none =>
        dsimp only
        by_cases hbud : maxConsecutiveErrors ≤ consec + 1
        · rw [if_pos hbud]
          exact ⟨(by omega : polls + 1 ≤ polls + (n + 1)), Or.inr (Or.inr hbud)⟩
        · rw [if_neg hbud]
          have h2 := ih (polls + 1) (consec + 1)
            (updates ++ [⟨last, some "HTTP error while polling task status"⟩]) last
          refine ⟨le_trans h2.1 (by omega), ?_⟩
          rcases h2.2 with h | h | h
          · exact Or.inl h
          · exact Or.inr (Or.inl (by omega))
          · exact Or.inr (Or.inr h)
    | connError m =>
      dsimp only
      by_cases hbud : maxConsecutiveErrors ≤ consec + 1
      · rw [if_pos hbud]
        exact ⟨(by omega : polls + 1 ≤ polls + (n + 1)), Or.inr (Or.inr hbud)⟩
      · rw [if_neg hbud]
        have h2 := ih (polls + 1) (consec + 1)
          (updates ++ [⟨last, some ("Connection error: " ++ m)⟩]) last
        refine ⟨le_trans h2.1 (by omega), ?_⟩
        rcases h2.2 with h | h | h
        · exact Or.inl h
        · exact Or.inr (Or.inl (by omega))
        · exact Or.inr (Or.inr h)

/-- C3: for every sequence of Gateway poll outcomes the startup-monitoring
loop stops within the wall-clock budget, and only because a terminal status
was observed, the budget was exhausted, or the consecutive-error budget was
reached; for the Gateway that always raises not-found with an empty
fallback list, it stops with `completed = false` and
`consecutive_errors > 0`. -/
theorem monitor_task_startup_terminates :
    (∀ env : MonitorEnv,
        (monitor_task_startup env).total_polls ≤ maxTotalPolls
      ∧ (((monitor_task_startup env).completed = true
            ∧ isTerminal (monitor_task_startup env).final_status = true)
         ∨ (monitor_task_startup env).total_polls = maxTotalPolls
         ∨ maxConsecutiveErrors ≤ (monitor_task_startup env).consecutive_errors))
  ∧ (monitor_task_startup alwaysNotFoundEnv).completed = false
  ∧ 0 < (monitor_task_startup alwaysNotFoundEnv).consecutive_errors := by
  refine ⟨fun env => ?_, by decide, by decide⟩
  have h := monitorLoop_stops env maxTotalPolls 0 0 [] "unknown"
  simpa [monitor_task_startup] using h

/-- C4: `filter_tasks` returns at most `limit` tasks, reports
`filtered_tasks` as the size of the filtered set before truncation and
`total_tasks` at least `filtered_tasks`; an empty retrieved set yields an
empty task sequence with zeroed statistics (and no error: the result type
has no error case). -/
theorem filter_tasks_invariants :
    (∀ (retrieved : List Entry) (status : List String) (limit : Nat),
        (filter_tasks retrieved status limit).tasks.length ≤ limit
      ∧ (filter_tasks retrieved status limit).statistics.filtered_tasks =
          (filteredByStatus retrieved status).length
      ∧ (filter_tasks retrieved status limit).statistics.filtered_tasks ≤
          (filter_tasks retrieved status limit).statistics.total_tasks)
  ∧ (∀ (status : List String) (limit : Nat),
        (filter_tasks [] status limit).tasks = []
      ∧ (filter_tasks [] status limit).statistics = ⟨0, 0⟩) := by
  constructor
  · intro retrieved status limit
    refine ⟨?_, rfl, ?_⟩
    · show ((filteredByStatus retrieved status).take limit).length ≤ limit
      rw [List.length_take]
      omega
    · exact List.length_filter_le _ _
  · intro status limit
    refine ⟨?_, rfl⟩
    show (([] : List Entry).take limit) = []
    simp

/-- Witness for C4 at a concrete retrieved set, status list and limit. -/
theorem filter_tasks_invariants_witness :
    ((filter_tasks [entrySuccessA, entryErrorB] ["successful"] 10).tasks.length ≤ 10
  ∧ (filter_tasks [entrySuccessA, entryErrorB] ["successful"] 10).statistics.filtered_tasks =
      (filteredByStatus [entrySuccessA, entryErrorB] ["successful"]).length
  ∧ (filter_tasks [entrySuccessA, entryErrorB] ["successful"] 10).statistics.filtered_tasks ≤
      (filter_tasks [entrySuccessA, entryErrorB] ["successful"] 10).statistics.total_tasks)
  ∧ ((filter_tasks [] ["success"] 10).tasks = []
  ∧ (filter_tasks [] ["success"] 10).statistics = ⟨0, 0⟩) :=
  ⟨filter_tasks_invariants.1 [entrySuccessA, entryErrorB] ["successful"] 10,
   filter_tasks_invariants.2 ["success"] 10⟩

/-- C5: without confirmation `bulk_stop_tasks` issues zero stop calls and
requires confirmation; with confirmation it issues exactly one stop call
per task id (in order), reports `summary.total_tasks = len(task_ids)`, and
records every per-task outcome without escalating failures (the result is
always a completed bulk operation). -/
theorem bulk_stop_tasks_two_phase :
    ∀ (gw : StopGateway) (task_ids : List Nat),
      (bulk_stop_tasks gw task_ids false).2 = []
    ∧ (bulk_stop_tasks gw task_ids false).1 = .preview true task_ids.length
    ∧ (bulk_stop_tasks gw task_ids true).2 = task_ids
    ∧ ∃ summary results,
        (bulk_stop_tasks gw task_ids true).1 = .complete summary results
      ∧ summary.total_tasks = task_ids.length
      ∧ results.length = task_ids.length
      ∧ summary.succeeded + summary.failed = task_ids.length := by
  intro gw task_ids
  have hle : (task_ids.map (fun tid => (tid, stopOutcome gw tid))).countP
      (fun r => r.2 == true) ≤ task_ids.length := by
    refine le_trans (List.countP_le_length _) ?_
    simp
  refine ⟨rfl, rfl, rfl, ?_⟩
  refine ⟨_, _, rfl, rfl, by simp, ?_⟩
  show (task_ids.map (fun tid => (tid, stopOutcome gw tid))).countP (fun r => r.2 == true)
      + (task_ids.length -
          (task_ids.map (fun tid => (tid, stopOutcome gw tid))).countP (fun r => r.2 == true))
      = task_ids.length
  omega

/-- A stop Gateway for which every stop call succeeds. -/
def gwStopOk : StopGateway where
  stop_task := fun _ => .ok ()

/-- Witness for C5 at a concrete Gateway and two task ids. -/
theorem bulk_stop_tasks_two_phase_witness :
    (bulk_stop_tasks gwStopOk [123, 124] false).2 = []
  ∧ (bulk_stop_tasks gwStopOk [123, 124] false).1 = .preview true ([123, 124] : List Nat).length
  ∧ (bulk_stop_tasks gwStopOk [123, 124] true).2 = [123, 124]
  ∧ ∃ summary results,
      (bulk_stop_tasks gwStopOk [123, 124] true).1 = .complete summary results
    ∧ summary.total_tasks = ([123, 124] : List Nat).length
    ∧ results.length = ([123, 124] : List Nat).length
    ∧ summary.succeeded + summary.failed = ([123, 124] : List Nat).length :=
  bulk_stop_tasks_two_phase gwStopOk [123, 124]

/-- C7: the claim says a successful task creation yields an envelope
`{task, web_urls: {task_detail, project_tasks}, message}`.  The code under
src instead returns the Gateway's response unchanged: at a successful
creation returning the raw record `{"id": 123, "status": "scheduled"}`,
`run_task` returns exactly that record (its type has no envelope fields) —
contradicting the repo's own test `test_run_task_with_project_id`, which
asserts the envelope. -/
theorem run_task_success_returns_raw_response :
    (run_task gwCreateOk 42 (some 1) none).1 =
      Except.ok { id := 123, status := "scheduled" } :=
  rfl

/-- C8: a tool invocation of `get_task` with a required argument missing
raises the validation error before the operation is attempted: the result
is the raised `KeyError` and the list of Gateway calls is empty. -/
theorem tool_get_task_missing_arg_no_call (gw : ServerGateway) (args : ToolArgs)
    (h : hasArg args "project_id" = false ∨ hasArg args "task_id" = false) :
    (∃ m, (tool_get_task gw args).1 = .error m)
  ∧ (tool_get_task gw args).2 = [] := by
  unfold tool_get_task
  rcases h with h | h
  · simp only [validate_required_args, h]
    exact ⟨⟨_, rfl⟩, by trivial⟩
  · by_cases hp : hasArg args "project_id"
    · simp only [validate_required_args, h, hp]
      exact ⟨⟨_, rfl⟩, by trivial⟩
    · simp only [validate_required_args, hp]
      simp only [Bool.false_eq_true, if_false]
      exact ⟨⟨_, rfl⟩, by trivial⟩

/-- A server Gateway stub whose `get_task` always succeeds. -/
def gwServerStub : ServerGateway where
  get_task := fun _ _ => .ok { id := 0, status := "success" }

/-- Witness for C8: arguments carrying only `task_id`. -/
theorem tool_get_task_missing_arg_no_call_witness :
    (∃ m, (tool_get_task gwServerStub [("task_id", 42)]).1 = .error m)
  ∧ (tool_get_task gwServerStub [("task_id", 42)]).2 = [] :=
  tool_get_task_missing_arg_no_call gwServerStub [("task_id", 42)] (Or.inl (by decide))

/-- C9: `run_task` treats an explicit `project_id` of 0 (falsy in Python)
exactly like an omitted `project_id`: the whole behaviour — result and
Gateway call trace — coincides with the omitted case, and the trace starts
with the project-resolution scan's `list_projects` call, so an explicit 0
never reaches the Gateway's task-creation call unchanged. -/
theorem run_task_zero_project_id_like_omitted (gw : TaskGateway) (template_id : Int)
    (environment : Option EnvDict) :
    run_task gw template_id (some 0) environment =
      run_task gw template_id none environment
  ∧ (run_task gw template_id (some 0) environment).2.head? =
      some TCall.listProjects := by
  constructor
  · unfold run_task
    cases hscan : (findTemplateProject gw template_id (normalizeProjects gw.list_projects)).1 with
    | none => simp [pyFalsyInt, hscan]
    | some p => simp [pyFalsyInt, hscan]
  · unfold run_task
    cases hscan : (findTemplateProject gw template_id (normalizeProjects gw.list_projects)).1 with
    | none => simp [pyFalsyInt, hscan]
    | some p =>
      simp [pyFalsyInt, hscan]
      split <;> rfl

/-- Witness for C9 at a concrete Gateway, template and environment. -/
theorem run_task_zero_project_id_like_omitted_witness :
    run_task gwCreateOk 42 (some 0) none = run_task gwCreateOk 42 none none
  ∧ (run_task gwCreateOk 42 (some 0) none).2.head? = some TCall.listProjects :=
  run_task_zero_project_id_like_omitted gwCreateOk 42 none
